import Mathlib

/-
Verification of the command-pattern chat assistant (intent router, memory
handler, calendar handler, and the next-free-slot search).

The Python sources are shallowly embedded below:
 - string primitives model the Python string operations actually used
   (`lower`, `strip`, `startswith`, `in`, `replace(old, '')`, `split(' ', n)`,
   `len`) on ASCII text;
 - the memory and calendar gateways are oracles (records of functions):
   a call that the Python client may raise on is an `Except` value;
 - handler functions additionally return the list of gateway calls they made,
   so that "the gateway is never called" is a provable statement;
 - instants are modelled as seconds (a `Nat`); `datetime.replace(hour=h+1)`
   raising `ValueError` for `h = 23` is modelled by an `Option` result.
-/

set_option maxRecDepth 4096

/-! ## Python string primitives -/

/-- ASCII lower-casing of one character, as Python `str.lower` acts on ASCII. -/
def lowerChar (c : Char) : Char :=
  if 65 ≤ c.toNat ∧ c.toNat ≤ 90 then Char.ofNat (c.toNat + 32) else c

/-- Python `str.lower` (ASCII fragment). -/
def pyLower (s : String) : String := String.mk (s.data.map lowerChar)

/-- Python whitespace set used by `str.strip`. -/
def pyIsSpace (c : Char) : Bool :=
  c == ' ' || c == '\t' || c == '\n' || c == '\r' || c == '\x0b' || c == '\x0c'

/-- Python `str.strip`: drop whitespace from both ends. -/
def pyStrip (s : String) : String :=
  String.mk (((s.data.dropWhile pyIsSpace).reverse.dropWhile pyIsSpace).reverse)

/-- Boolean "is prefix of" on character lists. -/
def listStarts : List Char → List Char → Bool
  | [], _ => true
  | _ :: _, [] => false
  | a :: as, b :: bs => a == b && listStarts as bs

/-- Boolean "occurs as a contiguous substring" on character lists. -/
def listHas (p : List Char) : List Char → Bool
  | [] => p.isEmpty
  | b :: bs => listStarts p (b :: bs) || listHas p bs

/-- Python `s.startswith(pat)`. -/
def pyStartswith (s pat : String) : Bool := listStarts pat.data s.data

/-- Python `pat in s` (substring containment). -/
def pyIn (pat s : String) : Bool := listHas pat.data s.data

/-- Remove every (non-overlapping, leftmost-first) occurrence of `pat`;
fuel-driven so that it reduces in the kernel. -/
def listRemoveF (pat : List Char) : Nat → List Char → List Char
  | _, [] => []
  | 0, l => l
  | fuel + 1, c :: cs =>
    if !pat.isEmpty && listStarts pat (c :: cs) then
      listRemoveF pat fuel (cs.drop (pat.length - 1))
    else
      c :: listRemoveF pat fuel cs

/-- Python `s.replace(pat, '')`: delete every occurrence of `pat`. -/
def pyRemove (pat s : String) : String :=
  String.mk (listRemoveF pat.data s.data.length s.data)

/-- Split off the part before the first `' '` (and the rest), if any. -/
def breakAtSpace : List Char → Option (List Char × List Char)
  | [] => none
  | c :: cs =>
    if c == ' ' then some ([], cs)
    else match breakAtSpace cs with
      | none => none
      | some (a, b) => some (c :: a, b)

/-- Helper for Python `s.split(' ', maxsplit)`. -/
def pySplitAux : Nat → List Char → List (List Char)
  | 0, l => [l]
  | m + 1, l =>
    match breakAtSpace l with
    | none => [l]
    | some (a, b) => a :: pySplitAux m b

/-- Python `s.split(' ', maxsplit)`: split on single spaces, keeping empty
tokens, with at most `maxsplit` splits. -/
def pySplit (s : String) (maxsplit : Nat) : List String :=
  (pySplitAux maxsplit s.data).map String.mk

/-- Python `len` on a string (number of code points). -/
def pyLen (s : String) : Nat := s.data.length

/-- The routing key of the app: `user_input.lower().strip()`. -/
def lowOf (t : String) : String := pyStrip (pyLower t)

/-! ## Time model for the next-free-slot search

Instants are seconds counted from an arbitrary midnight, so
`minute-of-hour = t / 60 % 60`, `hour-of-day = t / 3600 % 24`. -/

/-- Minute-of-hour of an instant. -/
def minuteOfHour (t : Nat) : Nat := t / 60 % 60

/-- Hour-of-day of an instant. -/
def hourOfDay (t : Nat) : Nat := t / 3600 % 24

/-- The instant rounded down to the whole hour. -/
def floorHour (t : Nat) : Nat := t - t % 3600

/-- The rounding step at the top of `get_next_free_slot`
(`calendar_tools.py` lines 477-481): drop seconds and microseconds, then, if
the minute is `< 30`, `replace(minute=30)`; otherwise
`replace(hour=hour+1, minute=0)`.  The Python `replace` raises `ValueError`
when `hour + 1 = 24`, which is the `none` outcome here. -/
def roundUpBoundary (t : Nat) : Option Nat :=
  if minuteOfHour t < 30 then some (floorHour t + 1800)
  else if hourOfDay t = 23 then none
  else some (floorHour t + 3600)

/-- One busy interval of a free/busy response (the payload strings are the
provider's ISO timestamps; their content is irrelevant to the logic). -/
structure BusyInterval where
  startI : String
  endI : String
deriving DecidableEq

/-- The `busy` list of one calendar in a free/busy response. -/
structure FreeBusyCal where
  busy : List BusyInterval
deriving DecidableEq

/-- Outcome of `get_free_busy_info(start, end)`: `none` models the empty
dict returned on `HttpError` / a response with no `'calendars'` key;
`some cals` models the `'calendars'` mapping of a real response. -/
def FreeBusyFn : Type := Nat → Nat → Option (List (String × FreeBusyCal))

/-- Python `dict.get(key, {})` on the `'calendars'` mapping. -/
def lookupCal (k : String) : List (String × FreeBusyCal) → FreeBusyCal
  | [] => ⟨[]⟩
  | (k2, v) :: rest => if k2 == k then v else lookupCal k rest

/-- `GoogleCalendarClient.is_available` (`calendar_tools.py` lines 441-461):
available when the free/busy response is empty or lacks `'calendars'`;
otherwise available iff the `'primary'` entry has zero busy intervals. -/
def is_available (get_free_busy_info : FreeBusyFn) (startT endT : Nat) : Bool :=
  match get_free_busy_info startT endT with
  | none => true
  | some cals => (lookupCal "primary" cals).busy.length == 0

/-- The candidate-scanning loop of `get_next_free_slot`
(`calendar_tools.py` lines 483-492): while the candidate is before the
horizon, return it if available, else step one hour.  `fuel` only bounds the
recursion; `200` hours of fuel strictly covers the `7 * 24 = 168` one-hour
steps of the 7-day horizon. -/
def findSlot (avail : Nat → Nat → Bool) (durSec : Nat) : Nat → Nat → Nat → Option Nat
  | 0, _, _ => none
  | fuel + 1, c, hEnd =>
    if c < hEnd then
      if avail c (c + durSec) then some c
      else findSlot avail durSec fuel (c + 3600) hEnd
    else none

/-- `GoogleCalendarClient.get_next_free_slot` (`calendar_tools.py` lines
463-492).  The outer `none` is the `ValueError` escaping from the rounding
step; `some none` is the Python `return None` ("no slot in the next 7
days"); `some (some c)` is a found slot start. -/
def get_next_free_slot (fb : FreeBusyFn) (now durationMinutes : Nat) : Option (Option Nat) :=
  match roundUpBoundary now with
  | none => none
  | some c0 => some (findSlot (is_available fb) (durationMinutes * 60) 200 c0 (now + 7 * 86400))

/-! ## Memory gateway data model (`mem0_manager.py`) -/

/-- One memory record as rendered by the app: every field is read with
`dict.get` and a default, so the fields are optional. -/
structure MemoryRecord where
  id : Option String
  memory : Option String
  categories : List String
  score : Option ℚ
deriving DecidableEq

/-- Raw value of `MemoryClient.get_all(..., version="v2")`: a dict with a
`'results'` list. -/
structure GetAllResp where
  results : List MemoryRecord
deriving DecidableEq

/-- Raw value of `MemoryClient.search(..., version="v2")`: a dict with a
`'results'` list of scored records. -/
structure SearchResp where
  results : List MemoryRecord
deriving DecidableEq

/-- A Python value returned by `MemoryManager.get_memories`: either the raw
dict from the client or the bare list `[]` of the exception path. -/
inductive GetAllOut where
  | dict (r : GetAllResp)
  | list (l : List MemoryRecord)
deriving DecidableEq

/-- Result dict of the `MemoryManager` mutation helpers:
`{"success": ..., "error": ...}`. -/
structure MMResult where
  success : Bool
  error : Option String
deriving DecidableEq

/-- The underlying `mem0.MemoryClient` as an oracle; `Except.error e` is the
client raising an exception whose `str` is `e`. -/
structure Mem0Client where
  addR : String → String → String → Except String Unit
  getAllR : String → Nat → Except String GetAllResp
  searchR : String → String → Nat → Except String SearchResp
  updateR : String → String → Except String Unit
  deleteR : String → Except String Unit
  deleteAllR : String → Except String Unit

/-- `MemoryManager.add_memory`: wraps the client call, catching exceptions
into `{"success": False, "error": str(e)}`. -/
def add_memory (cl : Mem0Client) (user_id memory_text memory_type : String) : MMResult :=
  match cl.addR user_id memory_text memory_type with
  | Except.ok _ => ⟨true, none⟩
  | Except.error e => ⟨false, some e⟩

/-- `MemoryManager.get_memories` (`mem0_manager.py` lines 37-65): returns the
raw client value on success and the empty *list* on any client exception. -/
def get_memories (cl : Mem0Client) (user_id : String) (limit : Nat) : GetAllOut :=
  match cl.getAllR user_id limit with
  | Except.ok r => GetAllOut.dict r
  | Except.error _ => GetAllOut.list []

/-- `MemoryManager.search_memories` (`mem0_manager.py` lines 67-106): the
raw scored `'results'` list filtered client-side by `score >= threshold`
(missing scores default to `0`); `[]` on any client exception. -/
def search_memories (cl : Mem0Client) (user_id query : String) (limit : Nat) (threshold : ℚ) :
    List MemoryRecord :=
  match cl.searchR user_id query limit with
  | Except.ok resp => resp.results.filter (fun m => decide (threshold ≤ m.score.getD 0))
  | Except.error _ => []

/-- `MemoryManager.update_memory`. -/
def update_memory (cl : Mem0Client) (memory_id updated_text : String) : MMResult :=
  match cl.updateR memory_id updated_text with
  | Except.ok _ => ⟨true, none⟩
  | Except.error e => ⟨false, some e⟩

/-- `MemoryManager.delete_memory`. -/
def delete_memory (cl : Mem0Client) (memory_id : String) : MMResult :=
  match cl.deleteR memory_id with
  | Except.ok _ => ⟨true, none⟩
  | Except.error e => ⟨false, some e⟩

/-- `MemoryManager.clear_user_memories`. -/
def clear_user_memories (cl : Mem0Client) (user_id : String) : MMResult :=
  match cl.deleteAllR user_id with
  | Except.ok _ => ⟨true, none⟩
  | Except.error e => ⟨false, some e⟩

/-! ## Memory handler (`app.py`, `process_memory_query`, lines 130-284) -/

/-- `str` of the `TypeError` CPython raises for `[]['results']`. -/
def listResultsTypeErrorMsg : String := "list indices must be integers or slices, not str"

/-- The app-level subscript `get_memories(...)['results']`: fine on the dict
shape, raises `TypeError` on the list shape. -/
def subscriptResults : GetAllOut → Except String (List MemoryRecord)
  | GetAllOut.dict r => Except.ok r.results
  | GetAllOut.list _ => Except.error listResultsTypeErrorMsg

/-- The gateway calls a memory-handler run performs, in order. -/
inductive MemCall where
  | add (userId text category : String)
  | getAll (userId : String) (limit : Nat)
  | search (userId query : String) (limit : Nat) (threshold : ℚ)
  | update (memId text : String)
  | delete (memId : String)
  | clearAll (userId : String)
deriving DecidableEq

/-- The `memory_content` computed by the `remember ...` storage branch
(`app.py` lines 146-152): `user_input.replace(phrase, '').strip()` for the
matched lower-case phrase, applied to the original-case input. -/
def rememberContent (t : String) : String :=
  if pyStartswith (lowOf t) "remember that " then pyStrip (pyRemove "remember that" t)
  else if pyStartswith (lowOf t) "remember i " then pyStrip (pyRemove "remember i" t)
  else if pyStartswith (lowOf t) "remember to " then pyStrip (pyRemove "remember to" t)
  else t

/-- The recall query (`app.py` line 200):
`user_input_lower.replace('recall', '').replace('remember about', '').strip()`. -/
def recallQuery (t : String) : String :=
  pyStrip (pyRemove "remember about" (pyRemove "recall" (lowOf t)))

/-- The memory-search query (`app.py` line 232):
`user_input_lower.replace('search memory', '').replace('find in memory', '').strip()`. -/
def memSearchQuery (t : String) : String :=
  pyStrip (pyRemove "find in memory" (pyRemove "search memory" (lowOf t)))

/-- One line of the memory list rendering (`app.py` lines 214-219). -/
def memoryLineFull (m : MemoryRecord) : String :=
  "`" ++ m.id.getD "unknown" ++ "`: " ++ m.memory.getD "No content" ++
    (if m.categories.isEmpty then ""
     else " *[" ++ String.intercalate ", " m.categories ++ "]*") ++ "\n"

/-- One line of the memory-search rendering (`app.py` lines 238-241). -/
def memoryLineShort (m : MemoryRecord) : String :=
  "`" ++ m.id.getD "unknown" ++ "`: " ++ m.memory.getD "No content" ++ "\n"

/-- The recall branch response (`app.py` lines 208-226). -/
def renderRecall (q : Option String) (mems : List MemoryRecord) : String :=
  if 0 < mems.length then
    (match q with
     | some qq => "🔍 **Memories about \x27" ++ qq ++ "\x27:**\n\n"
     | none => "💭 **Your Memories:**\n\n") ++ String.join (mems.map memoryLineFull)
  else
    match q with
    | some qq =>
        "❌ No memories found about \x27" ++ qq ++
          "\x27 with sufficient similarity (threshold: 0.5)."
    | none => "❌ No memories stored yet. Use \x27remember that...\x27 to store memories."

/-- The memory-search branch response (`app.py` lines 236-244). -/
def renderMemSearch (q : String) (mems : List MemoryRecord) : String :=
  if 0 < mems.length then
    "🔍 **Memory Search Results for \x27" ++ q ++ "\x27:**\n\n" ++
      String.join (mems.map memoryLineShort)
  else
    "❌ No memories found for \x27" ++ q ++
      "\x27 with sufficient similarity (threshold: 0.5)."

/-- The multi-line fallback of the memory handler (`app.py` lines 272-281). -/
def unknownMemoryCommandText : String :=
  "❌ **Unknown Memory Command.** Available commands:
- `remember that...` - Store a memory
- `recall [topic]` - Recall memories about topic  
- `search memory [query]` - Search memories
- `update memory <id> <new content>` - Update specific memory
- `delete memory <id>` - Delete specific memory
- `clear memories` - Delete all memories
- `my memories` - Show all memories
- `i prefer...` - Store preference
"

/-- The two recall arms that list all memories: `get_memories(user_id,
limit=10)['results']`; the subscript raises `TypeError` on the list shape. -/
def recallFromAll (cl : Mem0Client) (uid : String) : Except String String × List MemCall :=
  match subscriptResults (get_memories cl uid 10) with
  | Except.error e => (Except.error e, [MemCall.getAll uid 10])
  | Except.ok mems => (Except.ok (renderRecall none mems), [MemCall.getAll uid 10])

/-- Body of the `try:` block of `process_memory_query` (`app.py` lines
140-281), with the ordered branch structure of the source; the second
component is the list of gateway calls made. -/
def pmqBody (cl : Mem0Client) (uid t : String) : Except String String × List MemCall :=
  if pyStartswith (lowOf t) "remember that " || pyStartswith (lowOf t) "remember i " ||
      pyStartswith (lowOf t) "remember to " then
    if rememberContent t ≠ "" ∧ 5 < pyLen (rememberContent t) then
      if (add_memory cl uid (rememberContent t) "user_preference").success then
        (Except.ok ("💾 **Memory Stored:** \x22" ++ rememberContent t ++ "\x22"),
         [MemCall.add uid (rememberContent t) "user_preference"])
      else
        (Except.ok ("❌ **Memory Error:** " ++
            (add_memory cl uid (rememberContent t) "user_preference").error.getD "Unknown error"),
         [MemCall.add uid (rememberContent t) "user_preference"])
    else (Except.ok "❌ Please provide a valid memory to store.", [])
  else if pyStartswith (lowOf t) "update memory " then
    if 4 ≤ (pySplit t 3).length then
      if (update_memory cl ((pySplit t 3).getD 2 "") ((pySplit t 3).getD 3 "")).success then
        (Except.ok ("✏️ **Memory Updated:** " ++ (pySplit t 3).getD 2 "" ++ ": " ++
            (pySplit t 3).getD 3 ""),
         [MemCall.update ((pySplit t 3).getD 2 "") ((pySplit t 3).getD 3 "")])
      else
        (Except.ok ("❌ **Update Error:** " ++
            (update_memory cl ((pySplit t 3).getD 2 "") ((pySplit t 3).getD 3 "")).error.getD
              "Unknown error"),
         [MemCall.update ((pySplit t 3).getD 2 "") ((pySplit t 3).getD 3 "")])
    else (Except.ok "❌ **Usage:** update memory <id> <new content>", [])
  else if pyStartswith (lowOf t) "delete memory " then
    if 3 ≤ (pySplit t 2).length then
      if (delete_memory cl ((pySplit t 2).getD 2 "")).success then
        (Except.ok ("🗑️ **Memory Deleted:** " ++ (pySplit t 2).getD 2 ""),
         [MemCall.delete ((pySplit t 2).getD 2 "")])
      else
        (Except.ok ("❌ **Delete Error:** " ++
            (delete_memory cl ((pySplit t 2).getD 2 "")).error.getD "Unknown error"),
         [MemCall.delete ((pySplit t 2).getD 2 "")])
    else (Except.ok "❌ **Usage:** delete memory <id>", [])
  else if pyStartswith (lowOf t) "recall " || pyStartswith (lowOf t) "remember about " ||
      lowOf t == "what do you remember" || lowOf t == "my memories" then
    if lowOf t == "what do you remember" || lowOf t == "my memories" then
      recallFromAll cl uid
    else if recallQuery t ≠ "" ∧ 1 < pyLen (recallQuery t) then
      (Except.ok (renderRecall (some (recallQuery t))
          (search_memories cl uid (recallQuery t) 10 0.5)),
       [MemCall.search uid (recallQuery t) 10 0.5])
    else recallFromAll cl uid
  else if pyStartswith (lowOf t) "search memory " || pyStartswith (lowOf t) "find in memory " then
    if memSearchQuery t ≠ "" ∧ 1 < pyLen (memSearchQuery t) then
      (Except.ok (renderMemSearch (memSearchQuery t)
          (search_memories cl uid (memSearchQuery t) 5 0.5)),
       [MemCall.search uid (memSearchQuery t) 5 0.5])
    else (Except.ok "❌ Please specify what you want to search for in your memories.", [])
  else if lowOf t == "clear memories" || lowOf t == "delete memories" ||
      lowOf t == "reset memories" then
    if (clear_user_memories cl uid).success then
      (Except.ok "🗑️ **All memories have been cleared.**", [MemCall.clearAll uid])
    else
      (Except.ok ("❌ **Memory Error:** " ++
          (clear_user_memories cl uid).error.getD "Unknown error"),
       [MemCall.clearAll uid])
  else if pyStartswith (lowOf t) "i prefer " || pyStartswith (lowOf t) "i like " ||
      pyStartswith (lowOf t) "set preference " then
    if (add_memory cl uid t "preference").success then
      (Except.ok ("💾 **Preference Stored:** " ++ t), [MemCall.add uid t "preference"])
    else
      (Except.ok ("❌ **Memory Error:** " ++
          (add_memory cl uid t "preference").error.getD "Unknown error"),
       [MemCall.add uid t "preference"])
  else (Except.ok unknownMemoryCommandText, [])

/-- `process_memory_query`: availability guard, then the `try:` body with the
catch-all turning an exception into the `Memory System Error` reply. -/
def process_memory_query (cl : Mem0Client) (memoryAvailable : Bool) (uid t : String) :
    String × List MemCall :=
  if !memoryAvailable then ("❌ Memory system is not available.", [])
  else
    match pmqBody cl uid t with
    | (Except.ok s, tr) => (s, tr)
    | (Except.error e, tr) => ("❌ **Memory System Error:** " ++ e, tr)

/-- A memory client every call on which succeeds with an empty store;
used to instantiate closed statements. -/
def okClient : Mem0Client :=
  { addR := fun _ _ _ => Except.ok ()
    getAllR := fun _ _ => Except.ok ⟨[]⟩
    searchR := fun _ _ _ => Except.ok ⟨[]⟩
    updateR := fun _ _ => Except.ok ()
    deleteR := fun _ => Except.ok ()
    deleteAllR := fun _ => Except.ok () }

/-! ## Calendar handler (`app.py`, `process_calendar_query`, lines 71-128) -/

/-- What the handler reads from one MCP calendar tool response dict. -/
structure CalResult where
  formatted_output : Option String
  message : Option String
deriving DecidableEq

/-- The MCP calendar tool layer as an oracle: one field per tool the handler
invokes; `checkAvailR` is the truthiness of `result.get('available')` for the
next-2-hours check. -/
structure CalClient where
  todaysR : CalResult
  weeklyR : CalResult
  upcomingR : CalResult
  searchEvR : String → Nat → CalResult
  nextFreeR : Nat → CalResult
  checkAvailR : Bool

/-- The calendar gateway calls a calendar-handler run performs, in order. -/
inductive CalCall where
  | todays
  | weekly
  | upcoming
  | searchEv (query : String) (maxResults : Nat)
  | nextFree (durationMinutes : Nat)
  | checkAvail
deriving DecidableEq

/-- The calendar search query (`app.py` line 93):
`user_input_lower.replace('search', '').replace('find', '').strip()`. -/
def calSearchQuery (t : String) : String :=
  pyStrip (pyRemove "find" (pyRemove "search" (lowOf t)))

/-- `process_calendar_query`: the ordered sub-route chain of the source; the
second component is the list of gateway calls made. -/
def process_calendar_query (cc : CalClient) (t : String) : String × List CalCall :=
  if pyIn "today" (lowOf t) || pyIn "today\x27s" (lowOf t) || pyIn "todays" (lowOf t) then
    ("📅 **Today\x27s Schedule:**\n\n" ++ cc.todaysR.formatted_output.getD "No events found for today",
     [CalCall.todays])
  else if pyIn "week" (lowOf t) || pyIn "weekly" (lowOf t) || pyIn "this week" (lowOf t) then
    ("📅 **Weekly Schedule:**\n\n" ++ cc.weeklyR.formatted_output.getD "No events found for this week",
     [CalCall.weekly])
  else if pyIn "upcoming" (lowOf t) || pyIn "next events" (lowOf t) ||
      pyIn "future events" (lowOf t) then
    ("📅 **Upcoming Events:**\n\n" ++ cc.upcomingR.formatted_output.getD "No upcoming events found",
     [CalCall.upcoming])
  else if pyStartswith (lowOf t) "search " || pyStartswith (lowOf t) "find " then
    if calSearchQuery t ≠ "" then
      ("🔍 **Search Results for \x27" ++ calSearchQuery t ++ "\x27:**\n\n" ++
          (cc.searchEvR (calSearchQuery t) 10).formatted_output.getD
            ("No events found for \x22" ++ calSearchQuery t ++ "\x22"),
       [CalCall.searchEv (calSearchQuery t) 10])
    else ("❌ Please specify what you want to search for in your calendar.", [])
  else if pyIn "available" (lowOf t) || pyIn "free" (lowOf t) || pyIn "busy" (lowOf t) then
    if pyIn "next" (lowOf t) && pyIn "free" (lowOf t) then
      ("⏰ **Availability:**\n\n" ++ (cc.nextFreeR 60).message.getD "Unable to find free slot",
       [CalCall.nextFree 60])
    else if cc.checkAvailR then
      ("✅ **Availability:** You\x27re available for the next 2 hours!", [CalCall.checkAvail])
    else
      ("❌ **Availability:** You\x27re busy in the next 2 hours.", [CalCall.checkAvail])
  else
    ("📅 **Today\x27s Schedule:**\n\n" ++ cc.todaysR.formatted_output.getD "No events found for today",
     [CalCall.todays])

/-- A calendar client answering every tool call with an empty result;
used to instantiate closed statements. -/
def okCal : CalClient :=
  { todaysR := ⟨none, none⟩
    weeklyR := ⟨none, none⟩
    upcomingR := ⟨none, none⟩
    searchEvR := fun _ _ => ⟨none, none⟩
    nextFreeR := fun _ => ⟨none, none⟩
    checkAvailR := true }

/-! ## Intent router (`app.py`, `process_user_input`, lines 286-356) -/

/-- The routing outcome of one `process_user_input` call. -/
inductive Route where
  | memoryHandler
  | calendarHandler
  | notAuthenticated
  | helpMsg
  | greeting
  | unrecognized
deriving DecidableEq

/-- `memory_patterns` (`app.py` lines 291-297), in source order. -/
def memory_patterns : List String :=
  ["remember that", "remember i", "remember to",
   "recall", "remember about", "what do you remember", "my memories",
   "search memory", "find in memory", "update memory", "delete memory",
   "clear memories", "delete memories", "reset memories",
   "i prefer", "i like", "set preference"]

/-- `calendar_patterns` (`app.py` lines 300-305), in source order. -/
def calendar_patterns : List String :=
  ["today", "today\x27s", "todays", "week", "weekly", "this week",
   "upcoming", "next events", "future events",
   "search", "find", "available", "free", "busy", "schedule",
   "meeting", "event", "appointment", "calendar"]

/-- The fixed reply of the unauthenticated calendar branch (`app.py` line 314). -/
def notAuthText : String :=
  "❌ **Calendar not authenticated.** Please authenticate first using the button in the sidebar."

/-- The static greeting (`app.py` line 353). -/
def greetingText : String :=
  "👋 Hello! I\x27m your personal assistant. Type \x27help\x27 to see available commands."

/-- The fixed fallback reply (`app.py` line 356). -/
def notRecognizedText : String :=
  "❌ **Command not recognized.** Type \x27help\x27 to see available commands for calendar and memory management."

/-- The static help string (`app.py` lines 319-349). -/
def helpText : String :=
  "🤖 **Available Commands:**

📅 **Calendar Commands:**
- \x22today\x22 / \x22today\x27s schedule\x22 - Show today\x27s events
- \x22week\x22 / \x22weekly schedule\x22 - Show this week\x27s events  
- \x22upcoming events\x22 - Show upcoming events
- \x22search [query]\x22 - Search events
- \x22available\x22 / \x22free time\x22 - Check availability
- \x22next free slot\x22 - Find next available time

💭 **Memory Commands:**
- \x22remember that...\x22 - Store a memory
- \x22remember i...\x22 - Store personal memory
- \x22remember to...\x22 - Store reminder
- \x22recall [topic]\x22 - Recall memories about topic
- \x22my memories\x22 - Show all memories
- \x22search memory [query]\x22 - Search memories
- \x22update memory <id> <new content>\x22 - Update specific memory
- \x22delete memory <id>\x22 - Delete specific memory
- \x22clear memories\x22 - Delete all memories
- \x22i prefer...\x22 - Store preference

💡 **Examples:**
- \x22remember that I prefer morning workouts\x22
- \x22recall meeting preferences\x22 
- \x22search memory project deadline\x22
- \x22update memory abc123 I prefer afternoon workouts\x22
- \x22delete memory def456\x22
- \x22today\x27s schedule\x22
- \x22am I free tomorrow?\x22
"

/-- The routing decision of `process_user_input` as a function of the
lower-cased trimmed text and the authentication flag, with the source's
branch order: memory patterns (prefix or substring), then calendar patterns
(substring) gated by authentication, then exact help, then exact greeting. -/
def classify (low : String) (auth : Bool) : Route :=
  if memory_patterns.any (fun p => pyStartswith low p || pyIn p low) then Route.memoryHandler
  else if calendar_patterns.any (fun p => pyIn p low) then
    (if !auth then Route.notAuthenticated else Route.calendarHandler)
  else if low == "help" || low == "commands" || low == "what can you do" then Route.helpMsg
  else if low == "hello" || low == "hi" || low == "hey" || low == "greetings" then Route.greeting
  else Route.unrecognized

/-- The route chosen for raw input `t`. -/
def routeOf (t : String) (auth : Bool) : Route := classify (lowOf t) auth

/-- `process_user_input` (`app.py` lines 286-356): classify, then dispatch;
the call traces of whichever handler ran are returned (the other trace is
empty; a non-handler route calls no gateway at all). -/
def process_user_input (cl : Mem0Client) (cc : CalClient) (memoryAvailable : Bool)
    (uid : String) (auth : Bool) (t : String) : String × List MemCall × List CalCall :=
  match classify (lowOf t) auth with
  | Route.memoryHandler =>
      ((process_memory_query cl memoryAvailable uid t).1,
       (process_memory_query cl memoryAvailable uid t).2, [])
  | Route.notAuthenticated => (notAuthText, [], [])
  | Route.calendarHandler =>
      ((process_calendar_query cc t).1, [], (process_calendar_query cc t).2)
  | Route.helpMsg => (helpText, [], [])
  | Route.greeting => (greetingText, [], [])
  | Route.unrecognized => (notRecognizedText, [], [])

/-! ## Claim-side definitions

These definitions follow the wording of the specification; the theorems below
compare them with the embeddings of the source. -/

/-- The 17 memory-set phrases as the specification lists them. -/
def specMemoryPhrases : List String :=
  ["remember that", "remember i", "remember to",
   "recall", "remember about", "what do you remember", "my memories",
   "search memory", "find in memory", "update memory", "delete memory",
   "clear memories", "delete memories", "reset memories",
   "i prefer", "i like", "set preference"]

/-- The 19 calendar-set phrases as the specification lists them. -/
def specCalendarPhrases : List String :=
  ["today", "today\x27s", "todays", "week", "weekly", "this week",
   "upcoming", "next events", "future events",
   "search", "find", "available", "free", "busy", "schedule",
   "meeting", "event", "appointment", "calendar"]

/-- The router's ordered decision rule as the specification states it:
(1) a memory phrase as prefix or substring dispatches to the memory handler;
(2) else a calendar phrase as substring dispatches to the calendar handler
when authenticated and to the fixed not-authenticated message (no gateway
call) when not; (3) else exact help; (4) else exact greeting; (5) else the
fixed not-recognized message. -/
def routerClaim (cl : Mem0Client) (cc : CalClient) (memoryAvailable : Bool)
    (uid : String) (auth : Bool) (t : String) : String × List MemCall × List CalCall :=
  if specMemoryPhrases.any (fun p => pyStartswith (lowOf t) p || pyIn p (lowOf t)) then
    ((process_memory_query cl memoryAvailable uid t).1,
     (process_memory_query cl memoryAvailable uid t).2, [])
  else if specCalendarPhrases.any (fun p => pyIn p (lowOf t)) then
    (if auth then ((process_calendar_query cc t).1, [], (process_calendar_query cc t).2)
     else (notAuthText, [], []))
  else if lowOf t == "help" || lowOf t == "commands" || lowOf t == "what can you do" then
    (helpText, [], [])
  else if lowOf t == "hello" || lowOf t == "hi" || lowOf t == "hey" ||
      lowOf t == "greetings" then
    (greetingText, [], [])
  else (notRecognizedText, [], [])

/-- The behavior the specification claims for the next-free-slot search, for
one invocation instant `now`, duration `dur` (minutes) and free/busy oracle
`fb`: the rounded starting boundary `c0` is the next `:30` of the same hour
(minute `< 30`) or the next hour at `:00`, is half-hour aligned and after
`now`; candidates step exactly one hour from `c0` and stay strictly below
`now + 7` days; a returned slot is half-hour aligned, available, and the
earliest available candidate; and the no-slot outcome means every candidate
below the horizon is unavailable. -/
def nextFreeSlotClaimedBehavior (fb : FreeBusyFn) (now dur : Nat) : Prop :=
  ∃ c0, roundUpBoundary now = some c0 ∧
    c0 = (if minuteOfHour now < 30 then floorHour now + 1800 else floorHour now + 3600) ∧
    c0 % 1800 = 0 ∧ now < c0 ∧
    get_next_free_slot fb now dur =
      some (findSlot (is_available fb) (dur * 60) 200 c0 (now + 7 * 86400)) ∧
    (∀ r, findSlot (is_available fb) (dur * 60) 200 c0 (now + 7 * 86400) = some r →
      r % 1800 = 0 ∧ r < now + 7 * 86400 ∧ is_available fb r (r + dur * 60) = true ∧
      ∃ k, r = c0 + 3600 * k ∧
        ∀ j, j < k → is_available fb (c0 + 3600 * j) (c0 + 3600 * j + dur * 60) = false) ∧
    (findSlot (is_available fb) (dur * 60) 200 c0 (now + 7 * 86400) = none →
      ∀ k, c0 + 3600 * k < now + 7 * 86400 →
        is_available fb (c0 + 3600 * k) (c0 + 3600 * k + dur * 60) = false)

/-! ## Concrete instances used to instantiate closed statements -/

/-- A free/busy oracle: busy before instant `7200`, free afterwards. -/
def fb0 : FreeBusyFn :=
  fun s _ => some [("primary", ⟨if s < 7200 then [⟨"busyStart", "busyEnd"⟩] else []⟩)]

/-- A memory client whose `get_all` raises. -/
def errClient : Mem0Client :=
  { okClient with getAllR := fun _ _ => Except.error "boom" }

/-- Scored records: one above, one below the `0.5` threshold, one unscored. -/
def recHigh : MemoryRecord := ⟨some "m1", some "likes tea", [], some (4 / 5)⟩

/-- A record whose similarity score is below the threshold. -/
def recLow : MemoryRecord := ⟨some "m2", some "likes coffee", [], some (1 / 5)⟩

/-- A record with no similarity score (defaults to `0`). -/
def recNone : MemoryRecord := ⟨some "m3", some "no score", [], none⟩

/-- A memory client whose semantic search returns the three records above. -/
def scoredClient : Mem0Client :=
  { okClient with searchR := fun _ _ _ => Except.ok ⟨[recHigh, recLow, recNone]⟩ }

/-- Position of the first character difference of two pattern lists, if both
are long enough: used to show two prefixes exclude each other. -/
def startsConflictB : List Char → List Char → Bool
  | a :: as, b :: bs => a != b || startsConflictB as bs
  | _, _ => false

/-! ## Helper lemmas -/

lemma listStarts_nil (p : List Char) : listStarts p [] = p.isEmpty := by
  cases p <;> rfl

lemma listStarts_trans : ∀ (a b c : List Char),
    listStarts a b = true → listStarts b c = true → listStarts a c = true := by
  intro a
  induction a with
  | nil => intro b c _ _; rfl
  | cons x xs ih =>
    intro b c h1 h2
    cases b with
    | nil => simp [listStarts] at h1
    | cons y ys =>
      cases c with
      | nil => simp [listStarts] at h2
      | cons z zs =>
        simp [listStarts] at h1 h2 ⊢
        exact ⟨h1.1.trans h2.1, ih ys zs h1.2 h2.2⟩

lemma listStarts_drop : ∀ (i : Nat) (q m : List Char),
    listStarts q m = true → listStarts (q.drop i) (m.drop i) = true := by
  intro i
  induction i with
  | zero => intro q m h; simpa using h
  | succ n ih =>
    intro q m h
    cases q with
    | nil => simp [listStarts]
    | cons x xs =>
      cases m with
      | nil => simp [listStarts] at h
      | cons y ys =>
        simp [listStarts] at h
        simpa using ih xs ys h.2

lemma listHas_exists : ∀ (p l : List Char),
    listHas p l = true ↔ ∃ i, listStarts p (l.drop i) = true := by
  intro p l
  induction l with
  | nil =>
    simp [listHas, listStarts_nil]
  | cons b bs ih =>
    simp only [listHas, Bool.or_eq_true]
    constructor
    · rintro (h | h)
      · exact ⟨0, by simpa using h⟩
      · obtain ⟨i, hi⟩ := ih.mp h
        exact ⟨i + 1, by simpa using hi⟩
    · rintro ⟨i, hi⟩
      cases i with
      | zero => left; simpa using hi
      | succ j => right; exact ih.mpr ⟨j, by simpa using hi⟩

lemma pyIn_trans (p q l : String) :
    pyIn p q = true → pyIn q l = true → pyIn p l = true := by
  unfold pyIn
  intro h1 h2
  obtain ⟨i, hi⟩ := (listHas_exists _ _).mp h1
  obtain ⟨j, hj⟩ := (listHas_exists _ _).mp h2
  refine (listHas_exists _ _).mpr ⟨j + i, ?_⟩
  have h3 : listStarts (q.data.drop i) ((l.data.drop j).drop i) = true :=
    listStarts_drop i _ _ hj
  have h4 : listStarts p.data ((l.data.drop j).drop i) = true :=
    listStarts_trans _ _ _ hi h3
  rwa [List.drop_drop] at h4

lemma startsConflict_false : ∀ (p q l : List Char), startsConflictB p q = true →
    listStarts p l = true → listStarts q l = false := by
  intro p
  induction p with
  | nil => intro q l h; simp [startsConflictB] at h
  | cons a as ih =>
    intro q l hc h1
    cases q with
    | nil => simp [startsConflictB] at hc
    | cons b bs =>
      cases l with
      | nil => rfl
      | cons c cs =>
        simp [listStarts] at h1
        simp [startsConflictB] at hc
        simp [listStarts]
        intro hb
        rcases hc with hne | hc2
        · exact absurd (h1.1.trans hb.symm) hne
        · exact ih bs cs hc2 h1.2

lemma findSlot_sound (avail : Nat → Nat → Bool) (d : Nat) :
    ∀ (fuel c hEnd r : Nat), findSlot avail d fuel c hEnd = some r →
      ∃ k, r = c + 3600 * k ∧ r < hEnd ∧ avail r (r + d) = true ∧
        ∀ j, j < k → avail (c + 3600 * j) (c + 3600 * j + d) = false := by
  intro fuel
  induction fuel with
  | zero => intro c hEnd r h; simp [findSlot] at h
  | succ n ih =>
    intro c hEnd r h
    rw [findSlot] at h
    by_cases hlt : c < hEnd
    · rw [if_pos hlt] at h
      by_cases ha : avail c (c + d) = true
      · rw [if_pos ha] at h
        injection h with h'
        refine ⟨0, by omega, by omega, ?_, by omega⟩
        rw [← h']; exact ha
      · have ha' : avail c (c + d) = false := Bool.eq_false_iff.mpr ha
        rw [if_neg ha] at h
        obtain ⟨k, hk1, hk2, hk3, hk4⟩ := ih (c + 3600) hEnd r h
        refine ⟨k + 1, by omega, hk2, hk3, ?_⟩
        intro j hj
        cases j with
        | zero => simpa using ha'
        | succ j' =>
          have harith : c + 3600 * (j' + 1) = c + 3600 + 3600 * j' := by ring
          rw [harith]
          exact hk4 j' (by omega)
    · rw [if_neg hlt] at h
      cases h

lemma findSlot_complete (avail : Nat → Nat → Bool) (d : Nat) :
    ∀ (fuel c hEnd : Nat), hEnd ≤ c + 3600 * fuel →
      findSlot avail d fuel c hEnd = none →
      ∀ k, c + 3600 * k < hEnd → avail (c + 3600 * k) (c + 3600 * k + d) = false := by
  intro fuel
  induction fuel with
  | zero => intro c hEnd hf h k hk; exfalso; omega
  | succ n ih =>
    intro c hEnd hf h k hk
    rw [findSlot] at h
    by_cases hlt : c < hEnd
    · rw [if_pos hlt] at h
      by_cases ha : avail c (c + d) = true
      · rw [if_pos ha] at h; cases h
      · have ha' : avail c (c + d) = false := Bool.eq_false_iff.mpr ha
        rw [if_neg ha] at h
        cases k with
        | zero => simpa using ha'
        | succ k' =>
          have harith : c + 3600 * (k' + 1) = c + 3600 + 3600 * k' := by ring
          rw [harith]
          exact ih (c + 3600) hEnd (by omega) h k' (by omega)
    · exfalso; omega

/-! ## Claim theorems: next-free-slot search -/

/-- C2: for every invocation instant on which the rounding step is defined
(minute `< 30` or hour `≠ 23`), `get_next_free_slot` rounds `now` up to the
next `:30` of the same hour (minute `< 30`) or the next hour at `:00`, steps
candidates by exactly one hour below the `now + 7` days horizon, and returns
the earliest available candidate — which is therefore half-hour aligned with
zero seconds; the no-slot outcome means every candidate in the horizon was
unavailable. -/
theorem c2_next_free_slot_search (fb : FreeBusyFn) (now dur : Nat)
    (h : minuteOfHour now < 30 ∨ hourOfDay now ≠ 23) :
    nextFreeSlotClaimedBehavior fb now dur := by
  have hr : roundUpBoundary now =
      some (if minuteOfHour now < 30 then floorHour now + 1800 else floorHour now + 3600) := by
    unfold roundUpBoundary
    by_cases hm : minuteOfHour now < 30
    · simp [hm]
    · have h23 : hourOfDay now ≠ 23 := h.resolve_left hm
      simp [hm, h23]
  have halign :
      (if minuteOfHour now < 30 then floorHour now + 1800 else floorHour now + 3600) % 1800 = 0 := by
    unfold floorHour
    split <;> omega
  have hgt :
      now < (if minuteOfHour now < 30 then floorHour now + 1800 else floorHour now + 3600) := by
    unfold floorHour
    by_cases hm : minuteOfHour now < 30
    · rw [if_pos hm]
      unfold minuteOfHour at hm
      omega
    · rw [if_neg hm]
      omega
  refine ⟨_, hr, rfl, halign, hgt, ?_, ?_, ?_⟩
  · unfold get_next_free_slot
    rw [hr]
  · intro r hfind
    obtain ⟨k, hk1, hk2, hk3, hk4⟩ :=
      findSlot_sound (is_available fb) (dur * 60) 200 _ _ r hfind
    exact ⟨by omega, hk2, hk3, k, hk1, hk4⟩
  · intro hnone k hk
    exact findSlot_complete (is_available fb) (dur * 60) 200 _ _ (by omega) hnone k hk

/-- Witness for C2 at `now = 3661` (01:01:01), duration 60, with `fb0`. -/
theorem c2_next_free_slot_search_witness :
    (minuteOfHour 3661 < 30 ∨ hourOfDay 3661 ≠ 23) ∧
      nextFreeSlotClaimedBehavior fb0 3661 60 :=
  ⟨by decide, c2_next_free_slot_search fb0 3661 60 (by decide)⟩

/-- C3: the rounding step is NOT total — at any instant with hour 23 and
minute `≥ 30` the Python `replace(hour=24, minute=0)` raises `ValueError`
(the `none` outcome), and the exception escapes `get_next_free_slot`; the
claimed roll past midnight never happens. -/
theorem c3_rounding_raises_before_midnight (t : Nat)
    (h1 : hourOfDay t = 23) (h2 : 30 ≤ minuteOfHour t) :
    roundUpBoundary t = none ∧
      ∀ (fb : FreeBusyFn) (d : Nat), get_next_free_slot fb t d = none := by
  have hm : ¬ (minuteOfHour t < 30) := by omega
  have hr : roundUpBoundary t = none := by
    unfold roundUpBoundary
    rw [if_neg hm, if_pos h1]
  refine ⟨hr, fun fb d => ?_⟩
  unfold get_next_free_slot
  rw [hr]

/-- Witness for C3 at `t = 85500` (23:45:00). -/
theorem c3_rounding_raises_before_midnight_witness :
    hourOfDay 85500 = 23 ∧ 30 ≤ minuteOfHour 85500 ∧
      (roundUpBoundary 85500 = none ∧
        ∀ (fb : FreeBusyFn) (d : Nat), get_next_free_slot fb 85500 d = none) :=
  ⟨by decide, by decide, c3_rounding_raises_before_midnight 85500 (by decide) (by decide)⟩

/-- C7: when the free/busy provider responds with a `calendars` mapping, a
window is judged available iff the `primary` entry reports zero busy
intervals for it; and any slot returned by the search was judged available
by exactly this test on its own window. -/
theorem c7_availability_iff_zero_busy (fb : FreeBusyFn) (s e : Nat)
    (cals : List (String × FreeBusyCal)) (h : fb s e = some cals) :
    (is_available fb s e = true ↔ (lookupCal "primary" cals).busy = []) ∧
    (∀ now dur r, get_next_free_slot fb now dur = some (some r) →
      is_available fb r (r + dur * 60) = true) := by
  constructor
  · unfold is_available
    rw [h]
    simp [List.length_eq_zero]
  · intro now dur r hg
    unfold get_next_free_slot at hg
    cases hrb : roundUpBoundary now with
    | none => simp [hrb] at hg
    | some c0 =>
      simp only [hrb] at hg
      injection hg with hg'
      obtain ⟨k, _, _, h3, _⟩ :=
        findSlot_sound (is_available fb) (dur * 60) 200 c0 _ r hg'
      exact h3

/-- Witness for C7 on `fb0` at the window `[7200, 7260)`. -/
theorem c7_availability_iff_zero_busy_witness :
    fb0 7200 7260 = some [("primary", (⟨[]⟩ : FreeBusyCal))] ∧
      ((is_available fb0 7200 7260 = true ↔
          (lookupCal "primary" [("primary", (⟨[]⟩ : FreeBusyCal))]).busy = []) ∧
       (∀ now dur r, get_next_free_slot fb0 now dur = some (some r) →
          is_available fb0 r (r + dur * 60) = true)) :=
  ⟨by decide, c7_availability_iff_zero_busy fb0 7200 7260 _ (by decide)⟩

/-! ## Claim theorems: intent router -/

/-- C1: for every input text and authentication flag, the router applies
exactly the ordered decision rule of the specification on
`t.lower().strip()`: memory phrases (prefix or substring, 17 phrases) first,
then calendar phrases (substring, 19 phrases) gated by authentication with a
fixed not-authenticated reply and no gateway call, then exact help, then
exact greeting, then the fixed not-recognized reply. -/
theorem c1_router_decision_rule (cl : Mem0Client) (cc : CalClient) (mav : Bool)
    (uid : String) (auth : Bool) (t : String) :
    process_user_input cl cc mav uid auth t = routerClaim cl cc mav uid auth t := by
  have hms : specMemoryPhrases = memory_patterns := rfl
  have hcs : specCalendarPhrases = calendar_patterns := rfl
  unfold process_user_input routerClaim classify
  rw [hms, hcs]
  by_cases h1 :
      (memory_patterns.any fun p => pyStartswith (lowOf t) p || pyIn p (lowOf t)) = true
  · simp [h1]
  · have h1f := Bool.eq_false_iff.mpr h1
    by_cases h2 : (calendar_patterns.any fun p => pyIn p (lowOf t)) = true
    · cases auth <;> simp [h1f, h2]
    · have h2f := Bool.eq_false_iff.mpr h2
      by_cases h3 :
          (lowOf t == "help" || lowOf t == "commands" || lowOf t == "what can you do") = true
      · simp [h1f, h2f, h3]
      · have h3f := Bool.eq_false_iff.mpr h3
        by_cases h4 :
            (lowOf t == "hello" || lowOf t == "hi" || lowOf t == "hey" ||
              lowOf t == "greetings") = true
        · simp [h1f, h2f, h3f, h4]
        · have h4f := Bool.eq_false_iff.mpr h4
          simp [h1f, h2f, h3f, h4f]

/-- C9: the chosen route is a total, deterministic function of
`t.lower().strip()` and the authentication flag: two invocations with equal
lower-cased trimmed inputs and equal flags choose the same route. -/
theorem c9_route_deterministic (t t' : String) (auth auth' : Bool)
    (hT : lowOf t = lowOf t') (hA : auth = auth') :
    routeOf t auth = routeOf t' auth' := by
  unfold routeOf
  rw [hT, hA]

/-- Witness for C9: `"  HELLO "` and `"hello"` normalize alike and route alike. -/
theorem c9_route_deterministic_witness :
    lowOf "  HELLO " = lowOf "hello" ∧ true = true ∧
      routeOf "  HELLO " true = routeOf "hello" true :=
  ⟨by decide, rfl, c9_route_deterministic "  HELLO " "hello" true true (by decide) rfl⟩

/-! ## Helper lemmas for the memory handler branches -/

lemma pyStarts_conflict (s p q : String) (hc : startsConflictB p.data q.data = true)
    (h : pyStartswith s p = true) : pyStartswith s q = false :=
  startsConflict_false p.data q.data s.data hc h

lemma beq_false_of_starts (s q p : String) (h : pyStartswith s p = true)
    (hq : pyStartswith q p = false) : (s == q) = false := by
  cases hbe : s == q
  · rfl
  · exfalso
    have heq : s = q := eq_of_beq hbe
    rw [heq, hq] at h
    cases h

lemma pmq_avail (cl : Mem0Client) (uid t : String) :
    process_memory_query cl true uid t =
      (match pmqBody cl uid t with
       | (Except.ok s, tr) => (s, tr)
       | (Except.error e, tr) => ("❌ **Memory System Error:** " ++ e, tr)) := rfl

lemma pmqBody_remember (cl : Mem0Client) (uid t : String)
    (h : pyStartswith (lowOf t) "remember that " = true ∨
      pyStartswith (lowOf t) "remember i " = true ∨
      pyStartswith (lowOf t) "remember to " = true) :
    pmqBody cl uid t =
      (if rememberContent t ≠ "" ∧ 5 < pyLen (rememberContent t) then
        (if (add_memory cl uid (rememberContent t) "user_preference").success then
          (Except.ok ("💾 **Memory Stored:** \x22" ++ rememberContent t ++ "\x22"),
           [MemCall.add uid (rememberContent t) "user_preference"])
         else
          (Except.ok ("❌ **Memory Error:** " ++
              (add_memory cl uid (rememberContent t) "user_preference").error.getD "Unknown error"),
           [MemCall.add uid (rememberContent t) "user_preference"]))
       else (Except.ok "❌ Please provide a valid memory to store.", [])) := by
  unfold pmqBody
  rcases h with h | h | h <;> rw [h] <;> simp only [Bool.true_or, Bool.or_true] <;>
    rw [if_pos trivial]

lemma pmqBody_update (cl : Mem0Client) (uid t : String)
    (h : pyStartswith (lowOf t) "update memory " = true) :
    pmqBody cl uid t =
      (if 4 ≤ (pySplit t 3).length then
        (if (update_memory cl ((pySplit t 3).getD 2 "") ((pySplit t 3).getD 3 "")).success then
          (Except.ok ("✏️ **Memory Updated:** " ++ (pySplit t 3).getD 2 "" ++ ": " ++
              (pySplit t 3).getD 3 ""),
           [MemCall.update ((pySplit t 3).getD 2 "") ((pySplit t 3).getD 3 "")])
         else
          (Except.ok ("❌ **Update Error:** " ++
              (update_memory cl ((pySplit t 3).getD 2 "") ((pySplit t 3).getD 3 "")).error.getD
                "Unknown error"),
           [MemCall.update ((pySplit t 3).getD 2 "") ((pySplit t 3).getD 3 "")]))
       else (Except.ok "❌ **Usage:** update memory <id> <new content>", [])) := by
  have k1 : pyStartswith (lowOf t) "remember that " = false :=
    pyStarts_conflict _ "update memory " _ (by decide) h
  have k2 : pyStartswith (lowOf t) "remember i " = false :=
    pyStarts_conflict _ "update memory " _ (by decide) h
  have k3 : pyStartswith (lowOf t) "remember to " = false :=
    pyStarts_conflict _ "update memory " _ (by decide) h
  unfold pmqBody
  rw [k1, k2, k3, h]
  simp only [Bool.or_self, Bool.false_or]
  rw [if_neg Bool.false_ne_true, if_pos trivial]

lemma pmqBody_recall_search (cl : Mem0Client) (uid t : String)
    (h : pyStartswith (lowOf t) "recall " = true ∨
      pyStartswith (lowOf t) "remember about " = true)
    (hne : recallQuery t ≠ "") (hlen : 1 < pyLen (recallQuery t)) :
    pmqBody cl uid t =
      (Except.ok (renderRecall (some (recallQuery t))
          (search_memories cl uid (recallQuery t) 10 0.5)),
       [MemCall.search uid (recallQuery t) 10 0.5]) := by
  rcases h with h | h
  · have k1 : pyStartswith (lowOf t) "remember that " = false :=
      pyStarts_conflict _ "recall " _ (by decide) h
    have k2 : pyStartswith (lowOf t) "remember i " = false :=
      pyStarts_conflict _ "recall " _ (by decide) h
    have k3 : pyStartswith (lowOf t) "remember to " = false :=
      pyStarts_conflict _ "recall " _ (by decide) h
    have k4 : pyStartswith (lowOf t) "update memory " = false :=
      pyStarts_conflict _ "recall " _ (by decide) h
    have k5 : pyStartswith (lowOf t) "delete memory " = false :=
      pyStarts_conflict _ "recall " _ (by decide) h
    have k6 : (lowOf t == "what do you remember") = false :=
      beq_false_of_starts _ _ "recall " h (by decide)
    have k7 : (lowOf t == "my memories") = false :=
      beq_false_of_starts _ _ "recall " h (by decide)
    unfold pmqBody
    rw [k1, k2, k3, k4, k5, k6, k7, h]
    simp only [Bool.or_self, Bool.false_or, Bool.true_or, Bool.or_false]
    rw [if_neg Bool.false_ne_true, if_neg Bool.false_ne_true, if_neg Bool.false_ne_true,
      if_pos trivial, if_neg Bool.false_ne_true, if_pos ⟨hne, hlen⟩]
  · have k1 : pyStartswith (lowOf t) "remember that " = false :=
      pyStarts_conflict _ "remember about " _ (by decide) h
    have k2 : pyStartswith (lowOf t) "remember i " = false :=
      pyStarts_conflict _ "remember about " _ (by decide) h
    have k3 : pyStartswith (lowOf t) "remember to " = false :=
      pyStarts_conflict _ "remember about " _ (by decide) h
    have k4 : pyStartswith (lowOf t) "update memory " = false :=
      pyStarts_conflict _ "remember about " _ (by decide) h
    have k5 : pyStartswith (lowOf t) "delete memory " = false :=
      pyStarts_conflict _ "remember about " _ (by decide) h
    have k6 : (lowOf t == "what do you remember") = false :=
      beq_false_of_starts _ _ "remember about " h (by decide)
    have k7 : (lowOf t == "my memories") = false :=
      beq_false_of_starts _ _ "remember about " h (by decide)
    unfold pmqBody
    rw [k1, k2, k3, k4, k5, k6, k7, h]
    simp only [Bool.or_self, Bool.false_or, Bool.true_or, Bool.or_false, Bool.or_true]
    rw [if_neg Bool.false_ne_true, if_neg Bool.false_ne_true, if_neg Bool.false_ne_true,
      if_pos trivial, if_neg Bool.false_ne_true, if_pos ⟨hne, hlen⟩]

lemma pmqBody_memsearch (cl : Mem0Client) (uid t : String)
    (h : pyStartswith (lowOf t) "search memory " = true ∨
      pyStartswith (lowOf t) "find in memory " = true)
    (hne : memSearchQuery t ≠ "") (hlen : 1 < pyLen (memSearchQuery t)) :
    pmqBody cl uid t =
      (Except.ok (renderMemSearch (memSearchQuery t)
          (search_memories cl uid (memSearchQuery t) 5 0.5)),
       [MemCall.search uid (memSearchQuery t) 5 0.5]) := by
  rcases h with h | h
  · have k1 : pyStartswith (lowOf t) "remember that " = false :=
      pyStarts_conflict _ "search memory " _ (by decide) h
    have k2 : pyStartswith (lowOf t) "remember i " = false :=
      pyStarts_conflict _ "search memory " _ (by decide) h
    have k3 : pyStartswith (lowOf t) "remember to " = false :=
      pyStarts_conflict _ "search memory " _ (by decide) h
    have k4 : pyStartswith (lowOf t) "update memory " = false :=
      pyStarts_conflict _ "search memory " _ (by decide) h
    have k5 : pyStartswith (lowOf t) "delete memory " = false :=
      pyStarts_conflict _ "search memory " _ (by decide) h
    have k6 : pyStartswith (lowOf t) "recall " = false :=
      pyStarts_conflict _ "search memory " _ (by decide) h
    have k7 : pyStartswith (lowOf t) "remember about " = false :=
      pyStarts_conflict _ "search memory " _ (by decide) h
    have k8 : (lowOf t == "what do you remember") = false :=
      beq_false_of_starts _ _ "search memory " h (by decide)
    have k9 : (lowOf t == "my memories") = false :=
      beq_false_of_starts _ _ "search memory " h (by decide)
    unfold pmqBody
    rw [k1, k2, k3, k4, k5, k6, k7, k8, k9, h]
    simp only [Bool.or_self, Bool.false_or, Bool.true_or, Bool.or_false]
    rw [if_neg Bool.false_ne_true, if_neg Bool.false_ne_true, if_neg Bool.false_ne_true,
      if_neg Bool.false_ne_true, if_pos trivial, if_pos ⟨hne, hlen⟩]
  · have k1 : pyStartswith (lowOf t) "remember that " = false :=
      pyStarts_conflict _ "find in memory " _ (by decide) h
    have k2 : pyStartswith (lowOf t) "remember i " = false :=
      pyStarts_conflict _ "find in memory " _ (by decide) h
    have k3 : pyStartswith (lowOf t) "remember to " = false :=
      pyStarts_conflict _ "find in memory " _ (by decide) h
    have k4 : pyStartswith (lowOf t) "update memory " = false :=
      pyStarts_conflict _ "find in memory " _ (by decide) h
    have k5 : pyStartswith (lowOf t) "delete memory " = false :=
      pyStarts_conflict _ "find in memory " _ (by decide) h
    have k6 : pyStartswith (lowOf t) "recall " = false :=
      pyStarts_conflict _ "find in memory " _ (by decide) h
    have k7 : pyStartswith (lowOf t) "remember about " = false :=
      pyStarts_conflict _ "find in memory " _ (by decide) h
    have k8 : (lowOf t == "what do you remember") = false :=
      beq_false_of_starts _ _ "find in memory " h (by decide)
    have k9 : (lowOf t == "my memories") = false :=
      beq_false_of_starts _ _ "find in memory " h (by decide)
    unfold pmqBody
    rw [k1, k2, k3, k4, k5, k6, k7, k8, k9, h]
    simp only [Bool.or_self, Bool.false_or, Bool.true_or, Bool.or_false, Bool.or_true]
    rw [if_neg Bool.false_ne_true, if_neg Bool.false_ne_true, if_neg Bool.false_ne_true,
      if_neg Bool.false_ne_true, if_pos trivial, if_pos ⟨hne, hlen⟩]

/-! ## Claim theorems: memory handler -/

/-- C5 counterexample: on the mixed-case input `"Remember that buy milk"`
the stored text is the whole original string, not the claimed
case-insensitively-stripped `"buy milk"`, because the code deletes the
lower-case literal `'remember that'` case-sensitively from the original-case
string. -/
theorem c5_counterexample :
    (process_memory_query okClient true "student_001" "Remember that buy milk").2 =
      [MemCall.add "student_001" "Remember that buy milk" "user_preference"] ∧
    "Remember that buy milk" ≠ "buy milk" :=
  ⟨by decide, by decide⟩

/-- C5 (amended): for inputs whose lower-cased trimmed form starts with
`"remember that "`, `"remember i "`, or `"remember to "`, the stored text is
the original-case input with every case-sensitive occurrence of the matched
lower-case phrase (`'remember that'`, `'remember i'`, or `'remember to'`)
deleted and the result trimmed; length `≤ 5` yields the invalid-input message
with no gateway call, otherwise `add_memory` is called with category
`"user_preference"`; all-lower-case `"remember that buy milk"` stores exactly
`"buy milk"` with that category. -/
theorem c5_remember_store (cl : Mem0Client) (uid t : String)
    (h : pyStartswith (lowOf t) "remember that " = true ∨
      pyStartswith (lowOf t) "remember i " = true ∨
      pyStartswith (lowOf t) "remember to " = true) :
    (pyStartswith (lowOf t) "remember that " = true →
      rememberContent t = pyStrip (pyRemove "remember that" t)) ∧
    (pyStartswith (lowOf t) "remember i " = true →
      rememberContent t = pyStrip (pyRemove "remember i" t)) ∧
    (pyStartswith (lowOf t) "remember to " = true →
      rememberContent t = pyStrip (pyRemove "remember to" t)) ∧
    (pyLen (rememberContent t) ≤ 5 →
      process_memory_query cl true uid t = ("❌ Please provide a valid memory to store.", [])) ∧
    (5 < pyLen (rememberContent t) →
      (process_memory_query cl true uid t).2 =
        [MemCall.add uid (rememberContent t) "user_preference"]) ∧
    rememberContent "remember that buy milk" = "buy milk" ∧
    (process_memory_query cl true uid "remember that buy milk").2 =
      [MemCall.add uid "buy milk" "user_preference"] := by
  refine ⟨?_, ?_, ?_, ?_, ?_, by decide, ?_⟩
  · intro h1
    unfold rememberContent
    rw [if_pos h1]
  · intro h2
    have k1 : pyStartswith (lowOf t) "remember that " = false :=
      pyStarts_conflict _ "remember i " _ (by decide) h2
    unfold rememberContent
    rw [k1, if_neg Bool.false_ne_true, if_pos h2]
  · intro h3
    have k1 : pyStartswith (lowOf t) "remember that " = false :=
      pyStarts_conflict _ "remember to " _ (by decide) h3
    have k2 : pyStartswith (lowOf t) "remember i " = false :=
      pyStarts_conflict _ "remember to " _ (by decide) h3
    unfold rememberContent
    rw [k1, k2, if_neg Bool.false_ne_true, if_neg Bool.false_ne_true, if_pos h3]
  · intro hle
    rw [pmq_avail, pmqBody_remember cl uid t h,
      if_neg (by rintro ⟨-, hgt⟩; omega :
        ¬(rememberContent t ≠ "" ∧ 5 < pyLen (rememberContent t)))]
  · intro hgt
    have hne : rememberContent t ≠ "" := by
      intro he
      rw [he] at hgt
      exact absurd hgt (by decide)
    rw [pmq_avail, pmqBody_remember cl uid t h, if_pos ⟨hne, hgt⟩]
    cases hs : (add_memory cl uid (rememberContent t) "user_preference").success <;> simp [hs]
  · have h2 : pyStartswith (lowOf "remember that buy milk") "remember that " = true ∨
        pyStartswith (lowOf "remember that buy milk") "remember i " = true ∨
        pyStartswith (lowOf "remember that buy milk") "remember to " = true := by decide
    have hrc : rememberContent "remember that buy milk" = "buy milk" := by decide
    have hc : rememberContent "remember that buy milk" ≠ "" ∧
        5 < pyLen (rememberContent "remember that buy milk") := by decide
    rw [pmq_avail, pmqBody_remember cl uid "remember that buy milk" h2, if_pos hc, hrc]
    cases hs : (add_memory cl uid "buy milk" "user_preference").success <;> simp [hs]

/-- Witness for C5 (amended) on an all-lower-case `"remember i "`-prefixed
input of length `> 5`. -/
theorem c5_remember_store_witness :
    (pyStartswith (lowOf "remember i love green tea") "remember that " = true ∨
      pyStartswith (lowOf "remember i love green tea") "remember i " = true ∨
      pyStartswith (lowOf "remember i love green tea") "remember to " = true) ∧
    ((pyStartswith (lowOf "remember i love green tea") "remember that " = true →
        rememberContent "remember i love green tea" =
          pyStrip (pyRemove "remember that" "remember i love green tea")) ∧
      (pyStartswith (lowOf "remember i love green tea") "remember i " = true →
        rememberContent "remember i love green tea" =
          pyStrip (pyRemove "remember i" "remember i love green tea")) ∧
      (pyStartswith (lowOf "remember i love green tea") "remember to " = true →
        rememberContent "remember i love green tea" =
          pyStrip (pyRemove "remember to" "remember i love green tea")) ∧
      (pyLen (rememberContent "remember i love green tea") ≤ 5 →
        process_memory_query okClient true "student_001" "remember i love green tea" =
          ("❌ Please provide a valid memory to store.", [])) ∧
      (5 < pyLen (rememberContent "remember i love green tea") →
        (process_memory_query okClient true "student_001" "remember i love green tea").2 =
          [MemCall.add "student_001" (rememberContent "remember i love green tea")
              "user_preference"]) ∧
      rememberContent "remember that buy milk" = "buy milk" ∧
      (process_memory_query okClient true "student_001" "remember that buy milk").2 =
        [MemCall.add "student_001" "buy milk" "user_preference"]) :=
  ⟨by decide,
   c5_remember_store okClient "student_001" "remember i love green tea" (by decide)⟩

/-- C6 counterexample: the bare input `"update memory"` does not enter the
update sub-route (the code requires the trailing-space prefix
`'update memory '`), so the handler returns the unknown-memory-command
fallback, which is not the UsageError message. -/
theorem c6_counterexample :
    process_memory_query okClient true "student_001" "update memory" =
      (unknownMemoryCommandText, []) ∧
    unknownMemoryCommandText ≠ "❌ **Usage:** update memory <id> <new content>" :=
  ⟨by decide, by decide⟩

/-- C6 (amended): inputs entering the update sub-route (lower-cased trimmed
form starts with `"update memory "`) are split into at most 4 space-separated
tokens of the original text, with token 2 the id and token 3 the raw
remainder; fewer than 4 tokens yields the UsageError message with no gateway
call; the bare `"update memory"` misses the sub-route and yields the
unknown-memory-command fallback, also without any gateway call. -/
theorem c6_update_memory_usage (cl : Mem0Client) (uid t : String)
    (h : pyStartswith (lowOf t) "update memory " = true) :
    ((pySplit t 3).length < 4 →
      process_memory_query cl true uid t =
        ("❌ **Usage:** update memory <id> <new content>", [])) ∧
    (4 ≤ (pySplit t 3).length →
      (process_memory_query cl true uid t).2 =
        [MemCall.update ((pySplit t 3).getD 2 "") ((pySplit t 3).getD 3 "")]) ∧
    process_memory_query cl true uid "update memory" = (unknownMemoryCommandText, []) := by
  refine ⟨?_, ?_, rfl⟩
  · intro hlt
    rw [pmq_avail, pmqBody_update cl uid t h, if_neg (by omega : ¬ 4 ≤ (pySplit t 3).length)]
  · intro hge
    rw [pmq_avail, pmqBody_update cl uid t h, if_pos hge]
    cases hs : (update_memory cl ((pySplit t 3).getD 2 "") ((pySplit t 3).getD 3 "")).success <;>
      simp [hs]

/-- Witness for C6 (amended) on `"update memory m1 new text"` (4 tokens). -/
theorem c6_update_memory_usage_witness :
    pyStartswith (lowOf "update memory m1 new text") "update memory " = true ∧
    (((pySplit "update memory m1 new text" 3).length < 4 →
        process_memory_query okClient true "student_001" "update memory m1 new text" =
          ("❌ **Usage:** update memory <id> <new content>", [])) ∧
      (4 ≤ (pySplit "update memory m1 new text" 3).length →
        (process_memory_query okClient true "student_001" "update memory m1 new text").2 =
          [MemCall.update ((pySplit "update memory m1 new text" 3).getD 2 "")
              ((pySplit "update memory m1 new text" 3).getD 3 "")]) ∧
      process_memory_query okClient true "student_001" "update memory" =
        (unknownMemoryCommandText, [])) :=
  ⟨by decide, c6_update_memory_usage okClient "student_001" "update memory m1 new text" (by decide)⟩

/-- C4: every memory semantic search filters the gateway's raw scored result
list client-side by `score ≥ 0.5`: every returned element scores at least
`0.5`, raw elements below `0.5` are absent, the returned length never exceeds
the raw length; the recall sub-route requests limit 10 and the
search-memory sub-route limit 5, both at threshold `0.5`, and each returns
exactly the filtered list (rendered). -/
theorem c4_similarity_threshold (cl : Mem0Client) (uid q : String) (limit : Nat) :
    (∀ m, m ∈ search_memories cl uid q limit 0.5 → (0.5 : ℚ) ≤ m.score.getD 0) ∧
    (∀ r, cl.searchR uid q limit = Except.ok r →
      search_memories cl uid q limit 0.5 =
        r.results.filter (fun m => decide ((0.5 : ℚ) ≤ m.score.getD 0)) ∧
      (∀ m, m ∈ r.results → m.score.getD 0 < 0.5 →
        m ∉ search_memories cl uid q limit 0.5) ∧
      (search_memories cl uid q limit 0.5).length ≤ r.results.length) ∧
    (∀ t, (pyStartswith (lowOf t) "recall " = true ∨
        pyStartswith (lowOf t) "remember about " = true) →
      recallQuery t ≠ "" → 1 < pyLen (recallQuery t) →
      process_memory_query cl true uid t =
        (renderRecall (some (recallQuery t)) (search_memories cl uid (recallQuery t) 10 0.5),
         [MemCall.search uid (recallQuery t) 10 0.5])) ∧
    (∀ t, (pyStartswith (lowOf t) "search memory " = true ∨
        pyStartswith (lowOf t) "find in memory " = true) →
      memSearchQuery t ≠ "" → 1 < pyLen (memSearchQuery t) →
      process_memory_query cl true uid t =
        (renderMemSearch (memSearchQuery t) (search_memories cl uid (memSearchQuery t) 5 0.5),
         [MemCall.search uid (memSearchQuery t) 5 0.5])) := by
  refine ⟨?_, ?_, ?_, ?_⟩
  · intro m hm
    unfold search_memories at hm
    cases hsr : cl.searchR uid q limit with
    | error e => simp only [hsr] at hm; simp at hm
    | ok r =>
      simp only [hsr] at hm
      exact of_decide_eq_true (List.mem_filter.mp hm).2
  · intro r hr
    unfold search_memories
    simp only [hr]
    refine ⟨trivial, ?_, ?_⟩
    · intro m hmem hlt hmf
      have hge := of_decide_eq_true (List.mem_filter.mp hmf).2
      exact absurd hge (not_le.mpr hlt)
    · exact List.length_filter_le _ _
  · intro t ht hne hlen
    rw [pmq_avail, pmqBody_recall_search cl uid t ht hne hlen]
  · intro t ht hne hlen
    rw [pmq_avail, pmqBody_memsearch cl uid t ht hne hlen]

/-- Witness for C4 on `scoredClient` at the recall input `"recall pizza"`. -/
theorem c4_similarity_threshold_witness :
    (pyStartswith (lowOf "recall pizza") "recall " = true ∧
      recallQuery "recall pizza" ≠ "" ∧ 1 < pyLen (recallQuery "recall pizza")) ∧
    ((∀ m, m ∈ search_memories scoredClient "u" "pizza" 5 0.5 →
        (0.5 : ℚ) ≤ m.score.getD 0) ∧
      (∀ r, scoredClient.searchR "u" "pizza" 5 = Except.ok r →
        search_memories scoredClient "u" "pizza" 5 0.5 =
          r.results.filter (fun m => decide ((0.5 : ℚ) ≤ m.score.getD 0)) ∧
        (∀ m, m ∈ r.results → m.score.getD 0 < 0.5 →
          m ∉ search_memories scoredClient "u" "pizza" 5 0.5) ∧
        (search_memories scoredClient "u" "pizza" 5 0.5).length ≤ r.results.length) ∧
      (∀ t, (pyStartswith (lowOf t) "recall " = true ∨
          pyStartswith (lowOf t) "remember about " = true) →
        recallQuery t ≠ "" → 1 < pyLen (recallQuery t) →
        process_memory_query scoredClient true "u" t =
          (renderRecall (some (recallQuery t))
              (search_memories scoredClient "u" (recallQuery t) 10 0.5),
           [MemCall.search "u" (recallQuery t) 10 0.5])) ∧
      (∀ t, (pyStartswith (lowOf t) "search memory " = true ∨
          pyStartswith (lowOf t) "find in memory " = true) →
        memSearchQuery t ≠ "" → 1 < pyLen (memSearchQuery t) →
        process_memory_query scoredClient true "u" t =
          (renderMemSearch (memSearchQuery t)
              (search_memories scoredClient "u" (memSearchQuery t) 5 0.5),
           [MemCall.search "u" (memSearchQuery t) 5 0.5]))) :=
  ⟨by decide, c4_similarity_threshold scoredClient "u" "pizza" 5⟩

/-- C10: `get_memories` never raises — on a client exception it returns the
bare empty list instead of a `results` dict — so the `"my memories"` recall
path, which subscripts the result with `['results']`, raises `TypeError`
inside the handler's `try` and replies with the Memory System Error message,
not with the no-memories-stored message. -/
theorem c10_get_memories_never_raises (cl : Mem0Client) (uid e : String)
    (h : cl.getAllR uid 10 = Except.error e) :
    get_memories cl uid 10 = GetAllOut.list [] ∧
    process_memory_query cl true uid "my memories" =
      ("❌ **Memory System Error:** " ++ listResultsTypeErrorMsg, [MemCall.getAll uid 10]) ∧
    "❌ **Memory System Error:** " ++ listResultsTypeErrorMsg ≠
      "❌ No memories stored yet. Use \x27remember that...\x27 to store memories." := by
  have hg : get_memories cl uid 10 = GetAllOut.list [] := by
    unfold get_memories
    simp only [h]
  refine ⟨hg, ?_, by decide⟩
  have hbody : pmqBody cl uid "my memories" = recallFromAll cl uid := rfl
  rw [pmq_avail, hbody]
  unfold recallFromAll
  rw [hg]
  rfl

/-- Witness for C10 on `errClient`, whose `get_all` raises `"boom"`. -/
theorem c10_get_memories_never_raises_witness :
    errClient.getAllR "student_001" 10 = Except.error "boom" ∧
    (get_memories errClient "student_001" 10 = GetAllOut.list [] ∧
      process_memory_query errClient true "student_001" "my memories" =
        ("❌ **Memory System Error:** " ++ listResultsTypeErrorMsg,
         [MemCall.getAll "student_001" 10]) ∧
      "❌ **Memory System Error:** " ++ listResultsTypeErrorMsg ≠
        "❌ No memories stored yet. Use \x27remember that...\x27 to store memories.") :=
  ⟨rfl, c10_get_memories_never_raises errClient "student_001" "boom" rfl⟩

/-! ## Claim theorem: calendar search sub-route -/

lemma pyIn_false_of_sub (p P s : String) (hsub : pyIn p P = true)
    (h : pyIn p s = false) : pyIn P s = false := by
  cases hP : pyIn P s
  · rfl
  · exfalso
    have hps := pyIn_trans p P s hsub hP
    rw [h] at hps
    cases hps

/-- C8: for calendar-routed inputs starting with `"search "` or `"find "`
that match none of the earlier calendar sub-routes, the query is the
lower-cased text with every occurrence of the literals `'search'` and
`'find'` deleted and then trimmed; a non-empty query invokes the event
search with max 10 results, an empty one returns the please-specify message
without any gateway call. -/
theorem c8_calendar_search_query (cc : CalClient) (t : String)
    (hsf : pyStartswith (lowOf t) "search " = true ∨ pyStartswith (lowOf t) "find " = true)
    (h1 : pyIn "today" (lowOf t) = false)
    (h2 : pyIn "week" (lowOf t) = false)
    (h3 : pyIn "upcoming" (lowOf t) = false)
    (h4 : pyIn "next events" (lowOf t) = false)
    (h5 : pyIn "future events" (lowOf t) = false) :
    calSearchQuery t = pyStrip (pyRemove "find" (pyRemove "search" (lowOf t))) ∧
    (calSearchQuery t ≠ "" →
      process_calendar_query cc t =
        ("🔍 **Search Results for \x27" ++ calSearchQuery t ++ "\x27:**\n\n" ++
            (cc.searchEvR (calSearchQuery t) 10).formatted_output.getD
              ("No events found for \x22" ++ calSearchQuery t ++ "\x22"),
         [CalCall.searchEv (calSearchQuery t) 10])) ∧
    (calSearchQuery t = "" →
      process_calendar_query cc t =
        ("❌ Please specify what you want to search for in your calendar.", [])) := by
  have h1a : pyIn "today\x27s" (lowOf t) = false :=
    pyIn_false_of_sub "today" _ _ (by decide) h1
  have h1b : pyIn "todays" (lowOf t) = false :=
    pyIn_false_of_sub "today" _ _ (by decide) h1
  have h2a : pyIn "weekly" (lowOf t) = false :=
    pyIn_false_of_sub "week" _ _ (by decide) h2
  have h2b : pyIn "this week" (lowOf t) = false :=
    pyIn_false_of_sub "week" _ _ (by decide) h2
  have hb : process_calendar_query cc t =
      (if calSearchQuery t ≠ "" then
        ("🔍 **Search Results for \x27" ++ calSearchQuery t ++ "\x27:**\n\n" ++
            (cc.searchEvR (calSearchQuery t) 10).formatted_output.getD
              ("No events found for \x22" ++ calSearchQuery t ++ "\x22"),
         [CalCall.searchEv (calSearchQuery t) 10])
       else ("❌ Please specify what you want to search for in your calendar.", [])) := by
    unfold process_calendar_query
    rw [h1, h1a, h1b, h2, h2a, h2b, h3, h4, h5]
    simp only [Bool.or_self]
    rcases hsf with h | h
    · rw [h]
      simp only [Bool.true_or]
      rw [if_neg Bool.false_ne_true, if_neg Bool.false_ne_true, if_neg Bool.false_ne_true,
        if_pos trivial]
    · rw [h]
      simp only [Bool.or_true]
      rw [if_neg Bool.false_ne_true, if_neg Bool.false_ne_true, if_neg Bool.false_ne_true,
        if_pos trivial]
  refine ⟨rfl, ?_, ?_⟩
  · intro hne
    rw [hb, if_pos hne]
  · intro he
    rw [hb, if_neg (fun hne => hne he)]

/-- Witness for C8 at the input `"search groceries"` on `okCal`. -/
theorem c8_calendar_search_query_witness :
    ((pyStartswith (lowOf "search groceries") "search " = true ∨
        pyStartswith (lowOf "search groceries") "find " = true) ∧
      pyIn "today" (lowOf "search groceries") = false ∧
      pyIn "week" (lowOf "search groceries") = false ∧
      pyIn "upcoming" (lowOf "search groceries") = false ∧
      pyIn "next events" (lowOf "search groceries") = false ∧
      pyIn "future events" (lowOf "search groceries") = false) ∧
    (calSearchQuery "search groceries" =
        pyStrip (pyRemove "find" (pyRemove "search" (lowOf "search groceries"))) ∧
      (calSearchQuery "search groceries" ≠ "" →
        process_calendar_query okCal "search groceries" =
          ("🔍 **Search Results for \x27" ++ calSearchQuery "search groceries" ++
              "\x27:**\n\n" ++
              (okCal.searchEvR (calSearchQuery "search groceries") 10).formatted_output.getD
                ("No events found for \x22" ++ calSearchQuery "search groceries" ++ "\x22"),
           [CalCall.searchEv (calSearchQuery "search groceries") 10])) ∧
      (calSearchQuery "search groceries" = "" →
        process_calendar_query okCal "search groceries" =
          ("❌ Please specify what you want to search for in your calendar.", []))) :=
  ⟨by decide,
   c8_calendar_search_query okCal "search groceries" (by decide) (by decide) (by decide)
     (by decide) (by decide) (by decide)⟩
